import Mathlib

/-!
Verification of the filter-and-aggregate pipeline of the NYC Green Taxi
dashboard (`src/app.py`).  Pure fragments of the pandas pipeline are
embedded as Lean functions: a dataframe is a `List Row`, a pandas
`Series` of counts is a lookup function, a missing value (`NaN`) is
`Option.none`, and the SciPy statistical routines (`f_oneway`,
`chi2_contingency`), which are external library code, are passed in as
function parameters.
-/

/-- A pandas timestamp, as the app reads it: `totalSeconds` is the value
used when a timestamp difference is converted with `.dt.total_seconds()`,
`day` is `.dt.day` (day of month, 1–31), `dayName` is `.dt.day_name()`
and `hour` is `.dt.hour`. -/
structure Timestamp where
  totalSeconds : ℚ
  day : Nat
  dayName : String
  hour : Nat
deriving DecidableEq

/-- The fixed ordinal dictionary of `app.py` lines 52–58: `week_of_month`
values outside 1–5 are unmapped (pandas `.map` yields `NaN`, here `none`). -/
def weekNameTable (w : Nat) : Option String :=
  match w with
  | 1 => some "1st Week"
  | 2 => some "2nd Week"
  | 3 => some "3rd Week"
  | 4 => some "4th Week"
  | 5 => some "5th Week"
  | _ => none

/-- The derived per-row columns computed in `load_data` (lines 45–58). -/
structure DerivedFields where
  trip_duration : ℚ
  weekday : String
  hourofday : Nat
  day_of_month : Nat
  week_of_month : Nat
  week_name : Option String
deriving DecidableEq

/-- Row-wise embedding of `load_data` lines 45–58: `trip_duration` is the
dropoff minus pickup difference in seconds divided by 60; `weekday` and
`hourofday` come from the dropoff timestamp; `day_of_month`,
`week_of_month` and `week_name` come from the pickup timestamp.  `.dt.day`
is always at least 1, so the Python floor division `(d - 1) // 7` agrees
with truncated `Nat` subtraction and division here. -/
def deriveFields (pickup dropoff : Timestamp) : DerivedFields :=
  { trip_duration := (dropoff.totalSeconds - pickup.totalSeconds) / 60
  , weekday := dropoff.dayName
  , hourofday := dropoff.hour
  , day_of_month := pickup.day
  , week_of_month := (pickup.day - 1) / 7 + 1
  , week_name := weekNameTable ((pickup.day - 1) / 7 + 1) }

/-- The five ordinal labels of the week table, in order, as the spec lists
them. -/
def ordinalLabels : List String :=
  ["1st Week", "2nd Week", "3rd Week", "4th Week", "5th Week"]

/-- C1: for every pickup/dropoff pair whose pickup day of month lies in
1..31, the derived `week_of_month` is `((day_of_month - 1) // 7) + 1` and
`week_name` is exactly the fixed ordinal label of that integer. -/
theorem week_of_month_and_name_correct (pickup dropoff : Timestamp)
    (h1 : 1 ≤ pickup.day) (h2 : pickup.day ≤ 31) :
    (deriveFields pickup dropoff).week_of_month = (pickup.day - 1) / 7 + 1 ∧
    (deriveFields pickup dropoff).week_name =
      some (ordinalLabels.getD ((pickup.day - 1) / 7 + 1 - 1) "") := by
  refine ⟨rfl, ?_⟩
  have key : ∀ d ∈ Finset.Icc 1 31,
      weekNameTable ((d - 1) / 7 + 1) =
        some (ordinalLabels.getD ((d - 1) / 7 + 1 - 1) "") := by decide
  have hd : pickup.day ∈ Finset.Icc 1 31 := Finset.mem_Icc.mpr ⟨h1, h2⟩
  simpa [deriveFields] using key pickup.day hd

/-- Witness for C1 at a concrete pickup on day 15 of the month. -/
theorem week_of_month_and_name_correct_witness :
    (deriveFields ⟨0, 15, "Tuesday", 12⟩ ⟨600, 15, "Tuesday", 12⟩).week_of_month = 3 ∧
    (deriveFields ⟨0, 15, "Tuesday", 12⟩ ⟨600, 15, "Tuesday", 12⟩).week_name =
      some "3rd Week" := by
  have h := week_of_month_and_name_correct ⟨0, 15, "Tuesday", 12⟩
    ⟨600, 15, "Tuesday", 12⟩ (by decide) (by decide)
  exact ⟨h.1, h.2⟩

/-- C2: the derived `trip_duration` is the dropoff-minus-pickup difference
in seconds divided by 60, with no clamping: when dropoff precedes pickup
the value is negative and passes through unchanged. -/
theorem trip_duration_formula (pickup dropoff : Timestamp) :
    (deriveFields pickup dropoff).trip_duration =
      (dropoff.totalSeconds - pickup.totalSeconds) / 60 ∧
    (dropoff.totalSeconds < pickup.totalSeconds →
      (deriveFields pickup dropoff).trip_duration < 0) := by
  refine ⟨rfl, ?_⟩
  intro h
  have hneg : dropoff.totalSeconds - pickup.totalSeconds < 0 := sub_neg.mpr h
  have : (dropoff.totalSeconds - pickup.totalSeconds) / 60 < 0 :=
    div_neg_of_neg_of_pos hneg (by norm_num)
  simpa [deriveFields] using this

/-- Witness for C2: a trip whose dropoff is 600 seconds before its pickup
gets a negative duration. -/
theorem trip_duration_formula_witness :
    (deriveFields ⟨600, 1, "Monday", 0⟩ ⟨0, 1, "Monday", 0⟩).trip_duration < 0 :=
  (trip_duration_formula ⟨600, 1, "Monday", 0⟩ ⟨0, 1, "Monday", 0⟩).2 (by norm_num)

/-- One row of the loaded dataframe, with the columns the dashboard's
filter, aggregation and test layers read.  `week_name`,
`payment_type_name` and `trip_type_name` are pandas `.map` results, so an
unmapped code is `none` (`NaN`); numeric columns are real-valued after the
median imputation. -/
structure Row where
  trip_distance : ℚ
  trip_duration : ℚ
  total_amount : ℚ
  passenger_count : ℚ
  weekday : String
  hourofday : Nat
  week_name : Option String
  payment_type_name : Option String
  trip_type_name : Option String
deriving DecidableEq

/-- The weekday filter of the sidebar chain (`app.py` line 143):
`filtered_df[filtered_df['weekday'] == selected_weekday]`. -/
def filterWeekday (x : String) (df : List Row) : List Row :=
  df.filter (fun r => decide (r.weekday = x))

/-- The payment-type filter of the sidebar chain (`app.py` line 144). -/
def filterPayment (y : String) (df : List Row) : List Row :=
  df.filter (fun r => decide (r.payment_type_name = some y))

/-- C7: exact-match filters commute — applying the weekday and
payment-type predicates in either order yields the identical subset,
because the chained boolean masks combine by logical AND. -/
theorem filter_order_independent (df : List Row) (x y : String) :
    filterPayment y (filterWeekday x df) = filterWeekday x (filterPayment y df) ∧
    filterPayment y (filterWeekday x df) =
      df.filter (fun r => decide (r.weekday = x ∧ r.payment_type_name = some y)) := by
  constructor
  · induction df with
    | nil => rfl
    | cons r t ih =>
      by_cases h1 : r.weekday = x <;> by_cases h2 : r.payment_type_name = some y <;>
        simp [filterWeekday, filterPayment, List.filter, h1, h2] at ih ⊢ <;>
        exact ih
  · induction df with
    | nil => rfl
    | cons r t ih =>
      by_cases h1 : r.weekday = x <;> by_cases h2 : r.payment_type_name = some y <;>
        simp [filterWeekday, filterPayment, List.filter, h1, h2] at ih ⊢ <;>
        exact ih

/-- The mean of a pandas numeric `Series`: `NaN` (here `none`) on an empty
series, otherwise the arithmetic mean. -/
def seriesMean : List ℚ → Option ℚ
  | [] => none
  | xs => some (xs.sum / xs.length)

/-- The four key metrics of `app.py` lines 158–161: row count and the
means of `trip_distance`, `trip_duration` and `total_amount`. -/
structure KeyMetrics where
  totalTrips : Nat
  avgDistance : Option ℚ
  avgDuration : Option ℚ
  avgTotal : Option ℚ
deriving DecidableEq

/-- Embedding of the key-metric block over the filtered subset. -/
def keyMetrics (df : List Row) : KeyMetrics :=
  { totalTrips := df.length
  , avgDistance := seriesMean (df.map Row.trip_distance)
  , avgDuration := seriesMean (df.map Row.trip_duration)
  , avgTotal := seriesMean (df.map Row.total_amount) }

/-- C3: on the empty filtered subset the row count is 0 and every mean is
the non-numeric `NaN` indication (`none`), not a number and not an
exception. -/
theorem empty_subset_metrics :
    keyMetrics [] = ⟨0, none, none, none⟩ := rfl

/-- The fixed weekday order used by `reindex` (`app.py` line 178). -/
def weekdayOrder : List String :=
  ["Monday", "Tuesday", "Wednesday", "Thursday", "Friday", "Saturday", "Sunday"]

/-- `value_counts()` as a `Series` lookup: a value present in the column
maps to its count, an absent value is not in the index (`none`). -/
def valueCountsSeries (xs : List String) (v : String) : Option Nat :=
  if v ∈ xs then some (xs.count v) else none

/-- `.reindex(labels)`: one entry per requested label, in order; a label
absent from the series index gets `NaN` (`none`). -/
def reindexCounts (s : String → Option Nat) (labels : List String) :
    List (String × Option Nat) :=
  labels.map (fun l => (l, s l))

/-- `weekday_counts` of `app.py` line 178:
`filtered_df['weekday'].value_counts().reindex([...])`. -/
def weekdayCounts (df : List Row) : List (String × Option Nat) :=
  reindexCounts (valueCountsSeries (df.map Row.weekday)) weekdayOrder

/-- C4 counterexample: on the empty subset, Monday has zero observations,
and the weekday counts pair it with `NaN` (`none`), not with the count 0
the claim states. -/
theorem weekday_counts_missing_day_is_nan :
    ("Monday", (none : Option Nat)) ∈ weekdayCounts ([] : List Row) ∧
    ("Monday", some 0) ∉ weekdayCounts ([] : List Row) := by decide

/-- C4 amended: the weekday counts list the seven weekdays in the fixed
Monday-through-Sunday order, and each weekday is paired with `NaN`
(`none`) when it has zero observations in the subset and with its positive
count otherwise. -/
theorem weekday_counts_order_and_nan (df : List Row) :
    (weekdayCounts df).map Prod.fst = weekdayOrder ∧
    ∀ l c, (l, c) ∈ weekdayCounts df →
      c = if (df.map Row.weekday).count l = 0 then none
          else some ((df.map Row.weekday).count l) := by
  constructor
  · rfl
  · intro l c hmem
    simp only [weekdayCounts, reindexCounts, List.mem_map, Prod.mk.injEq] at hmem
    obtain ⟨a, ha, rfl, rfl⟩ := hmem
    by_cases hl : a ∈ df.map Row.weekday
    · have hc : (df.map Row.weekday).count a ≠ 0 := by
        simpa [Nat.pos_iff_ne_zero] using List.count_pos_iff.mpr hl
      simp only [valueCountsSeries]
      rw [if_pos hl, if_neg hc]
    · have hc : (df.map Row.weekday).count a = 0 := List.count_eq_zero.mpr hl
      simp only [valueCountsSeries]
      rw [if_neg hl, if_pos hc]

/-- A concrete Monday row used by witnesses. -/
def row1 : Row :=
  { trip_distance := 1
  , trip_duration := 5
  , total_amount := 10
  , passenger_count := 1
  , weekday := "Monday"
  , hourofday := 0
  , week_name := some "1st Week"
  , payment_type_name := some "Cash"
  , trip_type_name := some "Street-hail" }

/-- Witness for C4 amended at a one-row Monday subset: Monday's entry
carries count 1. -/
theorem weekday_counts_order_and_nan_witness :
    (some 1 : Option Nat) =
      if (([row1].map Row.weekday).count "Monday" = 0) then none
      else some (([row1].map Row.weekday).count "Monday") :=
  (weekday_counts_order_and_nan [row1]).2 "Monday" (some 1) (by decide)

/-- `df.groupby(col)` for a total (never-`NaN`) string column: one group
per distinct value present, each holding exactly the rows carrying that
value.  pandas forms groups only from values that occur, so no group is
empty. -/
def groupByKey (key : Row → String) (df : List Row) : List (String × List Row) :=
  ((df.map key).dedup).map (fun k => (k, df.filter (fun r => decide (key r = k))))

/-- `df.groupby(col)` for an optional string column: pandas drops rows
whose key is `NaN`, and forms one group per distinct non-null value
present. -/
def groupByOptKey (key : Row → Option String) (df : List Row) :
    List (String × List Row) :=
  ((df.filterMap key).dedup).map
    (fun k => (k, df.filter (fun r => decide (key r = some k))))

/-- `[g['total_amount'] for _, g in ...]`: the per-group lists of
`total_amount` values. -/
def amountGroups (gs : List (String × List Row)) : List (List ℚ) :=
  gs.map (fun kg => kg.2.map Row.total_amount)

/-- Groups of `total_amount` by `weekday` (`app.py` line 349). -/
def weekdayAmountGroups (df : List Row) : List (List ℚ) :=
  amountGroups (groupByKey Row.weekday df)

/-- Groups of `total_amount` by `week_name` (`app.py` line 363). -/
def weekAmountGroups (df : List Row) : List (List ℚ) :=
  amountGroups (groupByOptKey Row.week_name df)

/-- Groups of `total_amount` by `trip_type_name` (`app.py` line 335). -/
def tripTypeAmountGroups (df : List Row) : List (List ℚ) :=
  amountGroups (groupByOptKey Row.trip_type_name df)

/-- The admission condition of each ANOVA block:
`len(groups) >= 2 and all(len(group) > 0 for group in groups)`. -/
def anovaGuard (groups : List (List ℚ)) : Bool :=
  decide (2 ≤ groups.length) && groups.all (fun g => decide (0 < g.length))

/-- The significance threshold used by every test in the app. -/
def alphaLevel : ℚ := 5 / 100

/-- Outcome of one ANOVA block: a computed statistic with its significance
flag, a skip warning that carries the number of groups found (the weekday
and week blocks), or a skip warning that carries no count (the trip-type
block). -/
inductive AnovaReport where
  | computed (fStat pValue : ℚ) (significant : Bool)
  | cannotPerformFound (found : Nat)
  | cannotPerform
deriving DecidableEq

/-- The shared shape of the three ANOVA blocks: run `f_oneway` when the
guard admits the groups.  `fOneway` stands for `scipy.stats.f_oneway`. -/
def anovaCore (fOneway : List (List ℚ) → ℚ × ℚ) (groups : List (List ℚ)) :
    Option (ℚ × ℚ × Bool) :=
  if anovaGuard groups then
    some ((fOneway groups).1, (fOneway groups).2,
      decide ((fOneway groups).2 < alphaLevel))
  else none

/-- One ANOVA block: compute when the guard admits the groups, otherwise
emit the block's own skip report. -/
def anovaRun (fOneway : List (List ℚ) → ℚ × ℚ) (groups : List (List ℚ))
    (onFail : AnovaReport) : AnovaReport :=
  match anovaCore fOneway groups with
  | some (a, p, s) => .computed a p s
  | none => onFail

/-- The weekday ANOVA block (`app.py` lines 349–360); its warning message
interpolates `found {len(weekday_groups)}`. -/
def anovaWeekday (fOneway : List (List ℚ) → ℚ × ℚ) (df : List Row) : AnovaReport :=
  anovaRun fOneway (weekdayAmountGroups df)
    (.cannotPerformFound (weekdayAmountGroups df).length)

/-- The week-of-month ANOVA block (`app.py` lines 363–374); its warning
message interpolates `found {len(week_groups)}`. -/
def anovaWeek (fOneway : List (List ℚ) → ℚ × ℚ) (df : List Row) : AnovaReport :=
  anovaRun fOneway (weekAmountGroups df)
    (.cannotPerformFound (weekAmountGroups df).length)

/-- The trip-type ANOVA block (`app.py` lines 335–346); its warning
message carries no group count. -/
def anovaTripType (fOneway : List (List ℚ) → ℚ × ℚ) (df : List Row) : AnovaReport :=
  anovaRun fOneway (tripTypeAmountGroups df) .cannotPerform

lemma groupByKey_groups_pos (key : Row → String) (df : List Row) :
    ∀ g ∈ amountGroups (groupByKey key df), 0 < g.length := by
  intro g hg
  simp only [amountGroups, groupByKey, List.map_map, List.mem_map,
    Function.comp] at hg
  obtain ⟨k, hk, rfl⟩ := hg
  rw [List.mem_dedup, List.mem_map] at hk
  obtain ⟨r, hr, rfl⟩ := hk
  have hrf : r ∈ df.filter (fun x => decide (key x = key r)) :=
    List.mem_filter.mpr ⟨hr, by simp⟩
  simpa [List.length_map] using List.length_pos.mpr (List.ne_nil_of_mem hrf)

lemma groupByOptKey_groups_pos (key : Row → Option String) (df : List Row) :
    ∀ g ∈ amountGroups (groupByOptKey key df), 0 < g.length := by
  intro g hg
  simp only [amountGroups, groupByOptKey, List.map_map, List.mem_map,
    Function.comp] at hg
  obtain ⟨k, hk, rfl⟩ := hg
  rw [List.mem_dedup, List.mem_filterMap] at hk
  obtain ⟨r, hr, hkr⟩ := hk
  have hrf : r ∈ df.filter (fun x => decide (key x = some k)) :=
    List.mem_filter.mpr ⟨hr, by simp [hkr]⟩
  simpa [List.length_map] using List.length_pos.mpr (List.ne_nil_of_mem hrf)

lemma anovaGuard_of_all_pos (groups : List (List ℚ))
    (hpos : ∀ g ∈ groups, 0 < g.length) :
    anovaGuard groups = true ↔ 2 ≤ groups.length := by
  unfold anovaGuard
  simp only [Bool.and_eq_true, decide_eq_true_eq, List.all_eq_true]
  exact ⟨fun h => h.1, fun h => ⟨h, fun g hg => by simpa using hpos g hg⟩⟩

lemma weekdayAmountGroups_length (df : List Row) :
    (weekdayAmountGroups df).length = ((df.map Row.weekday).dedup).length := by
  simp [weekdayAmountGroups, amountGroups, groupByKey]

lemma weekAmountGroups_length (df : List Row) :
    (weekAmountGroups df).length = ((df.filterMap Row.week_name).dedup).length := by
  simp [weekAmountGroups, amountGroups, groupByOptKey]

lemma tripTypeAmountGroups_length (df : List Row) :
    (tripTypeAmountGroups df).length =
      ((df.filterMap Row.trip_type_name).dedup).length := by
  simp [tripTypeAmountGroups, amountGroups, groupByOptKey]

/-- C10: every group built by the three `groupby` partitions holds at
least one row, so the guard's all-nonempty conjunct is always satisfied
and admission to each ANOVA is decided solely by the number of groups,
which is the number of distinct category values present. -/
theorem groupby_groups_nonempty (df : List Row) :
    (∀ g ∈ weekdayAmountGroups df, 0 < g.length) ∧
    (∀ g ∈ weekAmountGroups df, 0 < g.length) ∧
    (∀ g ∈ tripTypeAmountGroups df, 0 < g.length) ∧
    (anovaGuard (weekdayAmountGroups df) = true ↔
      2 ≤ ((df.map Row.weekday).dedup).length) ∧
    (anovaGuard (weekAmountGroups df) = true ↔
      2 ≤ ((df.filterMap Row.week_name).dedup).length) ∧
    (anovaGuard (tripTypeAmountGroups df) = true ↔
      2 ≤ ((df.filterMap Row.trip_type_name).dedup).length) := by
  refine ⟨groupByKey_groups_pos Row.weekday df,
    groupByOptKey_groups_pos Row.week_name df,
    groupByOptKey_groups_pos Row.trip_type_name df, ?_, ?_, ?_⟩
  · rw [anovaGuard_of_all_pos (weekdayAmountGroups df)
      (groupByKey_groups_pos Row.weekday df), weekdayAmountGroups_length]
  · rw [anovaGuard_of_all_pos (weekAmountGroups df)
      (groupByOptKey_groups_pos Row.week_name df), weekAmountGroups_length]
  · rw [anovaGuard_of_all_pos (tripTypeAmountGroups df)
      (groupByOptKey_groups_pos Row.trip_type_name df), tripTypeAmountGroups_length]

/-- Witness for C10 at a one-row dataframe: its single weekday group is
the nonempty list of that row's `total_amount`. -/
theorem groupby_groups_nonempty_witness :
    0 < [(10 : ℚ)].length :=
  (groupby_groups_nonempty [row1]).1 [(10 : ℚ)] (by decide)

lemma anovaRun_guard_true (f : List (List ℚ) → ℚ × ℚ) (gs : List (List ℚ))
    (onFail : AnovaReport) (h : anovaGuard gs = true) :
    anovaRun f gs onFail =
      .computed (f gs).1 (f gs).2 (decide ((f gs).2 < alphaLevel)) := by
  simp [anovaRun, anovaCore, h]

lemma anovaRun_guard_false (f : List (List ℚ) → ℚ × ℚ) (gs : List (List ℚ))
    (onFail : AnovaReport) (h : anovaGuard gs = false) :
    anovaRun f gs onFail = onFail := by
  simp [anovaRun, anovaCore, h]

lemma anovaRun_computed_iff (f : List (List ℚ) → ℚ × ℚ) (gs : List (List ℚ))
    (onFail : AnovaReport) (hFail : ∀ a p s, onFail ≠ .computed a p s) :
    (∃ a p s, anovaRun f gs onFail = .computed a p s) ↔ anovaGuard gs = true := by
  cases h : anovaGuard gs
  · rw [anovaRun_guard_false f gs onFail h]
    simp only [Bool.false_eq_true, iff_false, not_exists]
    exact hFail
  · rw [anovaRun_guard_true f gs onFail h]
    exact ⟨fun _ => rfl, fun _ => ⟨_, _, _, rfl⟩⟩

lemma anovaRun_computed_elim (f : List (List ℚ) → ℚ × ℚ) (gs : List (List ℚ))
    (onFail : AnovaReport) (hFail : ∀ a p s, onFail ≠ .computed a p s)
    (a p : ℚ) (s : Bool) (h : anovaRun f gs onFail = .computed a p s) :
    a = (f gs).1 ∧ p = (f gs).2 ∧ (s = true ↔ p < alphaLevel) := by
  cases hg : anovaGuard gs
  · rw [anovaRun_guard_false f gs onFail hg] at h
    exact absurd h (hFail a p s)
  · rw [anovaRun_guard_true f gs onFail hg] at h
    simp only [AnovaReport.computed.injEq] at h
    obtain ⟨rfl, rfl, rfl⟩ := h
    exact ⟨rfl, rfl, by simp⟩

lemma cannotPerformFound_ne_computed (n : Nat) :
    ∀ a p s, AnovaReport.cannotPerformFound n ≠ .computed a p s := by
  intro a p s h
  cases h

lemma cannotPerform_ne_computed :
    ∀ a p s, AnovaReport.cannotPerform ≠ .computed a p s := by
  intro a p s h
  cases h

/-- C5 counterexample: on a one-row dataframe with a single trip type the
trip-type ANOVA block reports the count-less "cannot perform" warning, not
one carrying the number of available groups as the claim states. -/
theorem anova_trip_type_guard_carries_no_count :
    anovaTripType (fun _ => ((0 : ℚ), (0 : ℚ))) [row1] =
      AnovaReport.cannotPerform := by decide

/-- C5 amended: each ANOVA block computes an F-statistic, p-value and a
significance flag equivalent to p < 0.05 exactly when at least two
(necessarily non-empty) groups exist; with fewer than two groups the
weekday and week-of-month blocks report "cannot perform" carrying the
count of available groups, while the trip-type block reports "cannot
perform" without a count. -/
theorem anova_guard_behavior (f : List (List ℚ) → ℚ × ℚ) (df : List Row) :
    ((∃ a p s, anovaWeekday f df = .computed a p s) ↔
        2 ≤ ((df.map Row.weekday).dedup).length) ∧
    (¬ 2 ≤ ((df.map Row.weekday).dedup).length →
        anovaWeekday f df =
          .cannotPerformFound ((df.map Row.weekday).dedup).length) ∧
    ((∃ a p s, anovaWeek f df = .computed a p s) ↔
        2 ≤ ((df.filterMap Row.week_name).dedup).length) ∧
    (¬ 2 ≤ ((df.filterMap Row.week_name).dedup).length →
        anovaWeek f df =
          .cannotPerformFound ((df.filterMap Row.week_name).dedup).length) ∧
    ((∃ a p s, anovaTripType f df = .computed a p s) ↔
        2 ≤ ((df.filterMap Row.trip_type_name).dedup).length) ∧
    (¬ 2 ≤ ((df.filterMap Row.trip_type_name).dedup).length →
        anovaTripType f df = AnovaReport.cannotPerform) ∧
    (∀ a p s, anovaWeekday f df = .computed a p s →
        a = (f (weekdayAmountGroups df)).1 ∧ p = (f (weekdayAmountGroups df)).2 ∧
        (s = true ↔ p < alphaLevel)) ∧
    (∀ a p s, anovaWeek f df = .computed a p s →
        a = (f (weekAmountGroups df)).1 ∧ p = (f (weekAmountGroups df)).2 ∧
        (s = true ↔ p < alphaLevel)) ∧
    (∀ a p s, anovaTripType f df = .computed a p s →
        a = (f (tripTypeAmountGroups df)).1 ∧ p = (f (tripTypeAmountGroups df)).2 ∧
        (s = true ↔ p < alphaLevel)) := by
  have hwd : anovaGuard (weekdayAmountGroups df) = true ↔
      2 ≤ ((df.map Row.weekday).dedup).length := by
    rw [anovaGuard_of_all_pos (weekdayAmountGroups df)
      (groupByKey_groups_pos Row.weekday df), weekdayAmountGroups_length]
  have hwk : anovaGuard (weekAmountGroups df) = true ↔
      2 ≤ ((df.filterMap Row.week_name).dedup).length := by
    rw [anovaGuard_of_all_pos (weekAmountGroups df)
      (groupByOptKey_groups_pos Row.week_name df), weekAmountGroups_length]
  have htt : anovaGuard (tripTypeAmountGroups df) = true ↔
      2 ≤ ((df.filterMap Row.trip_type_name).dedup).length := by
    rw [anovaGuard_of_all_pos (tripTypeAmountGroups df)
      (groupByOptKey_groups_pos Row.trip_type_name df), tripTypeAmountGroups_length]
  refine ⟨?_, ?_, ?_, ?_, ?_, ?_, ?_, ?_, ?_⟩
  · rw [← hwd]
    exact anovaRun_computed_iff f (weekdayAmountGroups df) _
      (cannotPerformFound_ne_computed _)
  · intro h
    rw [← hwd] at h
    rw [anovaWeekday, anovaRun_guard_false f _ _ (by simpa using h),
      weekdayAmountGroups_length]
  · rw [← hwk]
    exact anovaRun_computed_iff f (weekAmountGroups df) _
      (cannotPerformFound_ne_computed _)
  · intro h
    rw [← hwk] at h
    rw [anovaWeek, anovaRun_guard_false f _ _ (by simpa using h),
      weekAmountGroups_length]
  · rw [← htt]
    exact anovaRun_computed_iff f (tripTypeAmountGroups df) _
      cannotPerform_ne_computed
  · intro h
    rw [← htt] at h
    rw [anovaTripType, anovaRun_guard_false f _ _ (by simpa using h)]
  · exact fun a p s h => anovaRun_computed_elim f (weekdayAmountGroups df) _
      (cannotPerformFound_ne_computed _) a p s h
  · exact fun a p s h => anovaRun_computed_elim f (weekAmountGroups df) _
      (cannotPerformFound_ne_computed _) a p s h
  · exact fun a p s h => anovaRun_computed_elim f (tripTypeAmountGroups df) _
      cannotPerform_ne_computed a p s h

/-- Witness for C5 amended: a one-weekday dataframe makes the weekday
block report "cannot perform" with the single group counted. -/
theorem anova_guard_behavior_witness :
    anovaWeekday (fun _ => ((0 : ℚ), (0 : ℚ))) [row1] =
      .cannotPerformFound ((([row1].map Row.weekday).dedup).length) :=
  (anova_guard_behavior (fun _ => ((0 : ℚ), (0 : ℚ))) [row1]).2.1 (by decide)

/-- The (trip type, payment type) pairs `pd.crosstab` tabulates: pandas
drops any row where either grouping value is `NaN`. -/
def validTripPaymentPairs (df : List Row) : List (String × String) :=
  df.filterMap (fun r =>
    match r.trip_type_name, r.payment_type_name with
    | some t, some p => some (t, p)
    | _, _ => none)

/-- The distinct trip-type labels of the contingency table (its rows). -/
def crosstabRowLabels (df : List Row) : List String :=
  ((validTripPaymentPairs df).map Prod.fst).dedup

/-- The distinct payment-type labels of the contingency table (its
columns). -/
def crosstabColLabels (df : List Row) : List String :=
  ((validTripPaymentPairs df).map Prod.snd).dedup

/-- `contingency.shape`: number of distinct trip types by number of
distinct payment types among the tabulated rows. -/
def crosstabShape (df : List Row) : Nat × Nat :=
  ((crosstabRowLabels df).length, (crosstabColLabels df).length)

/-- The contingency table itself: the count of each (trip type, payment
type) pair, one inner list per trip-type label. -/
def contingencyTable (df : List Row) : List (List Nat) :=
  (crosstabRowLabels df).map (fun t =>
    (crosstabColLabels df).map (fun p => (validTripPaymentPairs df).count (t, p)))

/-- Outcome of the chi-square block: a computed statistic with its
significance flag, or the "cannot perform" warning carrying the observed
table shape. -/
inductive ChiSquareReport where
  | computed (chi2 pValue : ℚ) (significant : Bool)
  | cannotPerform (shape : Nat × Nat)
deriving DecidableEq

/-- The chi-square block of `app.py` lines 383–395: run
`chi2_contingency` (passed in as `chi2c`) when the table has at least 2
rows and at least 2 columns, otherwise warn with the observed shape. -/
def chiSquareTest (chi2c : List (List Nat) → ℚ × ℚ) (df : List Row) :
    ChiSquareReport :=
  if 2 ≤ (crosstabShape df).1 ∧ 2 ≤ (crosstabShape df).2 then
    .computed (chi2c (contingencyTable df)).1 (chi2c (contingencyTable df)).2
      (decide ((chi2c (contingencyTable df)).2 < alphaLevel))
  else .cannotPerform (crosstabShape df)

/-- C6: the chi-square block computes a statistic and p-value exactly when
the contingency table has at least 2 rows and at least 2 columns (at least
two distinct trip types and two distinct payment types tabulated); a 1×N
or N×1 table yields a "cannot perform" report carrying the observed
shape, never a statistic; a computed report's flag is equivalent to
p < 0.05. -/
theorem chi_square_guard_behavior (chi2c : List (List Nat) → ℚ × ℚ)
    (df : List Row) :
    ((∃ c p s, chiSquareTest chi2c df = .computed c p s) ↔
        (2 ≤ (crosstabShape df).1 ∧ 2 ≤ (crosstabShape df).2)) ∧
    (¬ (2 ≤ (crosstabShape df).1 ∧ 2 ≤ (crosstabShape df).2) →
        chiSquareTest chi2c df = .cannotPerform (crosstabShape df)) ∧
    (∀ c p s, chiSquareTest chi2c df = .computed c p s →
        c = (chi2c (contingencyTable df)).1 ∧
        p = (chi2c (contingencyTable df)).2 ∧ (s = true ↔ p < alphaLevel)) := by
  by_cases h : 2 ≤ (crosstabShape df).1 ∧ 2 ≤ (crosstabShape df).2
  · rw [chiSquareTest, if_pos h]
    refine ⟨⟨fun _ => h, fun _ => ⟨_, _, _, rfl⟩⟩, fun hc => absurd h hc, ?_⟩
    intro c p s hcps
    simp only [ChiSquareReport.computed.injEq] at hcps
    obtain ⟨rfl, rfl, rfl⟩ := hcps
    exact ⟨rfl, rfl, by simp⟩
  · rw [chiSquareTest, if_neg h]
    refine ⟨⟨?_, fun hc => absurd hc h⟩, fun _ => rfl, ?_⟩
    · rintro ⟨c, p, s, hcps⟩
      cases hcps
    · intro c p s hcps
      cases hcps

/-- Witness for C6: a one-row dataframe gives a 1×1 table and the
"cannot perform" report carrying that shape. -/
theorem chi_square_guard_behavior_witness :
    chiSquareTest (fun _ => ((0 : ℚ), (0 : ℚ))) [row1] =
      .cannotPerform (crosstabShape [row1]) :=
  (chi_square_guard_behavior (fun _ => ((0 : ℚ), (0 : ℚ))) [row1]).2.1 (by decide)

def insertSorted (x : ℚ) : List ℚ → List ℚ
  | [] => [x]
  | y :: ys => if x ≤ y then x :: y :: ys else y :: insertSorted x ys

/-- Ascending insertion sort, used only to model pandas' median. -/
def sortRats : List ℚ → List ℚ
  | [] => []
  | x :: xs => insertSorted x (sortRats xs)

/-- `Series.median()` over the values present in a column: `NaN` (`none`)
when no value exists, the middle sorted value for an odd count, and the
mean of the two middle sorted values for an even count. -/
def seriesMedian (xs : List ℚ) : Option ℚ :=
  if xs.length = 0 then none
  else if xs.length % 2 = 1 then some ((sortRats xs).getD (xs.length / 2) 0)
  else some (((sortRats xs).getD (xs.length / 2 - 1) 0 +
    (sortRats xs).getD (xs.length / 2) 0) / 2)

/-- `col.fillna(m)` for a scalar `m`: filling with `NaN` (when the median
itself is undefined) leaves the column unchanged, otherwise every missing
entry becomes `m`. -/
def fillnaWith (m : Option ℚ) (col : List (Option ℚ)) : List (Option ℚ) :=
  match m with
  | none => col
  | some v => col.map (fun x => some (x.getD v))

/-- Line 60 of `app.py` for one numeric column: fill missing entries with
the column's median computed over the column as it stands at that point. -/
def medianImpute (col : List (Option ℚ)) : List (Option ℚ) :=
  fillnaWith (seriesMedian (col.filterMap id)) col

def ffillFrom (prev : Option ℚ) : List (Option ℚ) → List (Option ℚ)
  | [] => []
  | none :: xs => prev :: ffillFrom prev xs
  | some v :: xs => some v :: ffillFrom (some v) xs

/-- Line 61 of `app.py` for one column: `fillna(method='ffill')`
propagates the nearest preceding non-missing value in row order; entries
before the first non-missing value stay missing. -/
def ffillCol (col : List (Option ℚ)) : List (Option ℚ) :=
  ffillFrom none col

/-- Lines 60–61 of `app.py` for one numeric column, in the source's
order: median-impute fully, then forward-fill. -/
def loadNumericColumn (col : List (Option ℚ)) : List (Option ℚ) :=
  ffillCol (medianImpute col)

lemma ffillFrom_preserves_some (l : List (Option ℚ)) :
    ∀ (prev : Option ℚ) (i : Nat) (v : ℚ), l.get? i = some (some v) →
      (ffillFrom prev l).get? i = some (some v) := by
  induction l with
  | nil => intro prev i v h; simp at h
  | cons x xs ih =>
    intro prev i v h
    cases x with
    | none =>
      cases i with
      | zero => simp [List.get?] at h
      | succ n =>
        simpa [ffillFrom, List.get?] using ih prev n v (by simpa [List.get?] using h)
    | some w =>
      cases i with
      | zero => simpa [ffillFrom, List.get?] using h
      | succ n =>
        simpa [ffillFrom, List.get?] using
          ih (some w) n v (by simpa [List.get?] using h)

lemma medianImpute_preserves_some (col : List (Option ℚ)) (i : Nat) (v : ℚ)
    (h : col.get? i = some (some v)) :
    (medianImpute col).get? i = some (some v) := by
  unfold medianImpute fillnaWith
  cases seriesMedian (col.filterMap id) with
  | none => exact h
  | some m => rw [List.get?_map, h]; rfl

lemma medianImpute_fills_none (col : List (Option ℚ)) (i : Nat) (m : ℚ)
    (h : col.get? i = some none)
    (hm : seriesMedian (col.filterMap id) = some m) :
    (medianImpute col).get? i = some (some m) := by
  unfold medianImpute fillnaWith
  rw [hm, List.get?_map, h]
  rfl

/-- C8: the load step runs the two fills in exactly the source's order —
median-impute fully, then forward-fill — so every originally present
numeric value is unchanged, and every originally missing entry of a
column whose median is defined ends up holding that column's median,
computed over the column's full original contents. -/
theorem impute_median_then_ffill (col : List (Option ℚ)) :
    loadNumericColumn col = ffillCol (medianImpute col) ∧
    (∀ i v, col.get? i = some (some v) →
      (loadNumericColumn col).get? i = some (some v)) ∧
    (∀ i m, col.get? i = some none →
      seriesMedian (col.filterMap id) = some m →
      (loadNumericColumn col).get? i = some (some m)) := by
  refine ⟨rfl, ?_, ?_⟩
  · intro i v h
    exact ffillFrom_preserves_some _ none i v (medianImpute_preserves_some col i v h)
  · intro i m h hm
    exact ffillFrom_preserves_some _ none i m (medianImpute_fills_none col i m h hm)

/-- Witness for C8: in the column `[1, NaN, 3]` the missing middle entry
becomes the column median 2. -/
theorem impute_median_then_ffill_witness :
    (loadNumericColumn [some 1, none, some 3]).get? 1 = some (some 2) :=
  (impute_median_then_ffill [some 1, none, some 3]).2.2 1 2 (by rfl)
    (by norm_num [seriesMedian, sortRats, insertSorted, List.filterMap_cons,
      List.filterMap_nil])

/-- `DataFrame.sample(n)`: pandas raises when the requested size exceeds
the population (the `none` branch), otherwise returns `n` rows of some
reordering of the frame; `shuffle` stands for the random order chosen. -/
def pandasSample (shuffle : List Row → List Row) (df : List Row) (n : Nat) :
    Option (List Row) :=
  if n ≤ df.length then some ((shuffle df).take n) else none

/-- Line 202 of `app.py`:
`filtered_df.sample(min(1000, len(filtered_df)))`. -/
def sampleDf (shuffle : List Row → List Row) (df : List Row) : Option (List Row) :=
  pandasSample shuffle df (min 1000 df.length)

/-- C9: the requested sample size `min(1000, n)` never exceeds the
population, so the sampling failure branch is unreachable and the scatter
sample has exactly `min(1000, n)` rows, for every subset including the
empty one. -/
theorem sample_size_safe (shuffle : List Row → List Row)
    (hlen : ∀ l, (shuffle l).length = l.length) (df : List Row) :
    min 1000 df.length ≤ df.length ∧
    sampleDf shuffle df = some ((shuffle df).take (min 1000 df.length)) ∧
    ((shuffle df).take (min 1000 df.length)).length = min 1000 df.length := by
  have hmin : min 1000 df.length ≤ df.length := min_le_right _ _
  refine ⟨hmin, ?_, ?_⟩
  · rw [sampleDf, pandasSample, if_pos hmin]
  · rw [List.length_take, hlen]
    exact min_eq_left hmin

/-- Witness for C9 with the identity reordering on a one-row subset. -/
theorem sample_size_safe_witness :
    min 1000 (List.length ([row1] : List Row)) ≤ List.length ([row1] : List Row) ∧
    sampleDf id [row1] =
      some ((id [row1]).take (min 1000 (List.length ([row1] : List Row)))) ∧
    ((id [row1]).take (min 1000 (List.length ([row1] : List Row)))).length =
      min 1000 (List.length ([row1] : List Row)) :=
  sample_size_safe id (fun _ => rfl) [row1]

/-- Witness for C7 on a concrete one-row dataframe. -/
theorem filter_order_independent_witness :
    filterPayment "Cash" (filterWeekday "Monday" [row1]) =
      filterWeekday "Monday" (filterPayment "Cash" [row1]) :=
  (filter_order_independent [row1] "Monday" "Cash").1
